import Mathlib

/-!
A shallow embedding of the physics engine in `src/assets/ts/physicsEng.ts`.
JavaScript `number` (float64) is modelled as `ℝ`; `Math.sqrt` as `Real.sqrt`.
Each definition mirrors the corresponding TypeScript class or method; mutating
methods become functions returning the updated value.
-/

noncomputable section

namespace PhysicsEng

/-- Model of `Vector2D` (physicsEng.ts lines 1–29): an immutable 2D vector. -/
@[ext] structure Vector2D where
  x : ℝ
  y : ℝ

/-- Model of `Vector2D.add`. -/
def Vector2D.add (v w : Vector2D) : Vector2D := ⟨v.x + w.x, v.y + w.y⟩

/-- Model of `Vector2D.subtract`. -/
def Vector2D.subtract (v w : Vector2D) : Vector2D := ⟨v.x - w.x, v.y - w.y⟩

/-- Model of `Vector2D.multiply` (scalar). -/
def Vector2D.multiply (v : Vector2D) (scalar : ℝ) : Vector2D := ⟨v.x * scalar, v.y * scalar⟩

/-- Model of `Vector2D.magnitude`: `Math.sqrt(x*x + y*y)`. -/
def Vector2D.magnitude (v : Vector2D) : ℝ := Real.sqrt (v.x * v.x + v.y * v.y)

/-- Model of `Vector2D.normalize`: returns the zero vector when the magnitude is zero,
otherwise divides both components by the magnitude. -/
def Vector2D.normalize (v : Vector2D) : Vector2D :=
  if v.magnitude = 0 then ⟨0, 0⟩ else ⟨v.x / v.magnitude, v.y / v.magnitude⟩

/-- Model of `Vector2D.dot`. -/
def Vector2D.dot (v w : Vector2D) : ℝ := v.x * w.x + v.y * w.y

/-- Model of `Circle` (physicsEng.ts lines 55–111): kinematic and material state of a circle body.
`color` is the cosmetic field assigned at construction. -/
@[ext] structure Circle where
  position : Vector2D
  velocity : Vector2D
  acceleration : Vector2D
  radius : ℝ
  mass : ℝ
  elasticity : ℝ
  friction : ℝ
  color : String

/-- Model of `Circle.update(dt)`: semi-implicit Euler; the position update uses the already
updated velocity, and the acceleration accumulator is reset to zero. -/
def Circle.update (dt : ℝ) (c : Circle) : Circle :=
  let v := c.velocity.add (c.acceleration.multiply dt)
  { c with velocity := v, position := c.position.add (v.multiply dt), acceleration := ⟨0, 0⟩ }

/-- Model of `Circle.applyForce(force)`: accumulates `force * (1 / mass)` into the acceleration. -/
def Circle.applyForce (force : Vector2D) (c : Circle) : Circle :=
  { c with acceleration := c.acceleration.add (force.multiply (1 / c.mass)) }

/-- Model of `Box` (physicsEng.ts lines 125–202). -/
@[ext] structure Box where
  position : Vector2D
  velocity : Vector2D
  acceleration : Vector2D
  width : ℝ
  height : ℝ
  mass : ℝ
  elasticity : ℝ
  friction : ℝ
  color : String
  rotation : ℝ
  angularVelocity : ℝ

/-- Model of `Box.update(dt)`: like `Circle.update` plus `rotation += angularVelocity * dt`. -/
def Box.update (dt : ℝ) (b : Box) : Box :=
  let v := b.velocity.add (b.acceleration.multiply dt)
  { b with velocity := v, position := b.position.add (v.multiply dt),
           rotation := b.rotation + b.angularVelocity * dt, acceleration := ⟨0, 0⟩ }

/-- Model of `Box.applyForce(force)`. -/
def Box.applyForce (force : Vector2D) (b : Box) : Box :=
  { b with acceleration := b.acceleration.add (force.multiply (1 / b.mass)) }

/-- The `PhysicsObject` interface: the engine only ever instantiates `Circle` and `Box`. -/
inductive PhysicsObject where
  | circle (c : Circle)
  | box (b : Box)

/-- Mass of a body (interface field `mass`). -/
def PhysicsObject.mass : PhysicsObject → ℝ
  | .circle c => c.mass
  | .box b => b.mass

/-- Elasticity of a body (interface field `elasticity`). -/
def PhysicsObject.elasticity : PhysicsObject → ℝ
  | .circle c => c.elasticity
  | .box b => b.elasticity

/-- Friction of a body (interface field `friction`). -/
def PhysicsObject.friction : PhysicsObject → ℝ
  | .circle c => c.friction
  | .box b => b.friction

/-- Acceleration of a body (interface field `acceleration`). -/
def PhysicsObject.acceleration : PhysicsObject → Vector2D
  | .circle c => c.acceleration
  | .box b => b.acceleration

/-- Color of a body. -/
def PhysicsObject.color : PhysicsObject → String
  | .circle c => c.color
  | .box b => b.color

/-- Dispatch of `update(dt)` through the `PhysicsObject` interface. -/
def PhysicsObject.update (dt : ℝ) : PhysicsObject → PhysicsObject
  | .circle c => .circle (Circle.update dt c)
  | .box b => .box (Box.update dt b)

/-- Dispatch of `applyForce(force)` through the `PhysicsObject` interface. -/
def PhysicsObject.applyForce (force : Vector2D) : PhysicsObject → PhysicsObject
  | .circle c => .circle (Circle.applyForce force c)
  | .box b => .box (Box.applyForce force b)

/-- Assignment `obj.elasticity = e` as performed by `setGlobalElasticity`. -/
def PhysicsObject.withElasticity (e : ℝ) : PhysicsObject → PhysicsObject
  | .circle c => .circle { c with elasticity := e }
  | .box b => .box { b with elasticity := e }

/-- Assignment `obj.friction = f` as performed by `setGlobalFriction`. -/
def PhysicsObject.withFriction (f : ℝ) : PhysicsObject → PhysicsObject
  | .circle c => .circle { c with friction := f }
  | .box b => .box { b with friction := f }

/-- Model of `PhysicsWorld.checkBoundaries` for a `Circle` (physicsEng.ts lines 323–354).
The four wall tests run in order — bottom, top, right, left — each reading the
state left by the previous one, exactly as the sequential `if` statements do. -/
def checkBoundariesCircle (width height : ℝ) (c0 : Circle) : Circle :=
  let c1 := if c0.position.y + c0.radius > height then
      { c0 with position := ⟨c0.position.x, height - c0.radius⟩,
                velocity := ⟨c0.velocity.x * (1 - c0.friction), -c0.velocity.y * c0.elasticity⟩ }
    else c0
  let c2 := if c1.position.y - c1.radius < 0 then
      { c1 with position := ⟨c1.position.x, c1.radius⟩,
                velocity := ⟨c1.velocity.x, -c1.velocity.y * c1.elasticity⟩ }
    else c1
  let c3 := if c2.position.x + c2.radius > width then
      { c2 with position := ⟨width - c2.radius, c2.position.y⟩,
                velocity := ⟨-c2.velocity.x * c2.elasticity, c2.velocity.y⟩ }
    else c2
  if c3.position.x - c3.radius < 0 then
      { c3 with position := ⟨c3.radius, c3.position.y⟩,
                velocity := ⟨-c3.velocity.x * c3.elasticity, c3.velocity.y⟩ }
    else c3

/-- Model of `PhysicsWorld.checkBoundaries` for a `Box` (physicsEng.ts lines 355–388):
half-width/half-height extents, and on the bottom wall additionally
`angularVelocity *= 0.8`. -/
def checkBoundariesBox (width height : ℝ) (b0 : Box) : Box :=
  let b1 := if b0.position.y + b0.height / 2 > height then
      { b0 with position := ⟨b0.position.x, height - b0.height / 2⟩,
                velocity := ⟨b0.velocity.x * (1 - b0.friction), -b0.velocity.y * b0.elasticity⟩,
                angularVelocity := b0.angularVelocity * 0.8 }
    else b0
  let b2 := if b1.position.y - b1.height / 2 < 0 then
      { b1 with position := ⟨b1.position.x, b1.height / 2⟩,
                velocity := ⟨b1.velocity.x, -b1.velocity.y * b1.elasticity⟩ }
    else b1
  let b3 := if b2.position.x + b2.width / 2 > width then
      { b2 with position := ⟨width - b2.width / 2, b2.position.y⟩,
                velocity := ⟨-b2.velocity.x * b2.elasticity, b2.velocity.y⟩ }
    else b2
  if b3.position.x - b3.width / 2 < 0 then
      { b3 with position := ⟨b3.width / 2, b3.position.y⟩,
                velocity := ⟨-b3.velocity.x * b3.elasticity, b3.velocity.y⟩ }
    else b3

/-- Model of `PhysicsWorld.checkBoundaries` dispatching on the runtime shape of the body. -/
def checkBoundaries (width height : ℝ) : PhysicsObject → PhysicsObject
  | .circle c => .circle (checkBoundariesCircle width height c)
  | .box b => .box (checkBoundariesBox width height b)

/-- Model of `PhysicsWorld.handleCircleToCircleCollision` (physicsEng.ts lines 404–435):
impulse-based response along the collision normal plus positional correction,
returning the updated pair `(circleA, circleB)`. -/
def handleCircleToCircleCollision (circleA circleB : Circle) : Circle × Circle :=
  let distance := (circleA.position.subtract circleB.position).magnitude
  let minDistance := circleA.radius + circleB.radius
  if distance < minDistance then
    let normal := (circleA.position.subtract circleB.position).normalize
    let relativeVelocity := circleA.velocity.subtract circleB.velocity
    let velocityAlongNormal := relativeVelocity.dot normal
    if velocityAlongNormal > 0 then (circleA, circleB)
    else
      let e := min circleA.elasticity circleB.elasticity
      let j := (-(1 + e) * velocityAlongNormal) / (1 / circleA.mass + 1 / circleB.mass)
      let impulse := normal.multiply j
      let correctionPercent : ℝ := 0.8
      let correction := normal.multiply ((minDistance - distance) * correctionPercent)
      let totalInverseMass := 1 / circleA.mass + 1 / circleB.mass
      let ratioA := 1 / circleA.mass / totalInverseMass
      let ratioB := 1 / circleB.mass / totalInverseMass
      ({ circleA with velocity := circleA.velocity.add (impulse.multiply (1 / circleA.mass)),
                      position := circleA.position.add (correction.multiply ratioA) },
       { circleB with velocity := circleB.velocity.subtract (impulse.multiply (1 / circleB.mass)),
                      position := circleB.position.subtract (correction.multiply ratioB) })
  else (circleA, circleB)

/-- One inner iteration of `checkCollisions`: only Circle–Circle pairs resolve;
every other pair is left untouched. -/
def handlePair (a b : PhysicsObject) : PhysicsObject × PhysicsObject :=
  match a, b with
  | .circle ca, .circle cb =>
      let p := handleCircleToCircleCollision ca cb
      (.circle p.1, .circle p.2)
  | a, b => (a, b)

/-- The inner `j` loop of `PhysicsWorld.checkCollisions`: resolve `a` against each
later body in turn, threading the in-place mutations of `a` through the list. -/
def resolveAgainst (a : PhysicsObject) : List PhysicsObject → PhysicsObject × List PhysicsObject
  | [] => (a, [])
  | b :: rest =>
      let p := handlePair a b
      let q := resolveAgainst p.1 rest
      (q.1, p.2 :: q.2)

/-- Collision resolution never adds or removes bodies from the tail. -/
theorem resolveAgainst_length (a : PhysicsObject) (l : List PhysicsObject) :
    (resolveAgainst a l).2.length = l.length := by
  induction l generalizing a with
  | nil => rfl
  | cons b rest ih => simp [resolveAgainst, ih]

/-- Model of `PhysicsWorld.checkCollisions` (lines 391–402): the exhaustive `i < j` pass,
with velocities and positions mutated in place as pairs resolve sequentially. -/
def checkCollisions : List PhysicsObject → List PhysicsObject
  | [] => []
  | a :: rest =>
      let p := resolveAgainst a rest
      p.1 :: checkCollisions p.2
termination_by l => l.length
decreasing_by simp [resolveAgainst_length]

/-- The mutable state of `PhysicsWorld` relevant to simulation (lines 204–211),
after initialization: the body list, the running flag, the `lastTimestamp`
baseline, gravity, and the arena bounds `canvas.width`/`canvas.height`. -/
structure PhysicsWorld where
  objects : List PhysicsObject
  running : Bool
  lastTimestamp : ℝ
  gravity : Vector2D
  width : ℝ
  height : ℝ

/-- The `dt` computed at line 305: `(lastTimestamp) ? (timestamp - lastTimestamp) / 1000 : 1/60`
(JavaScript truthiness of a number is `≠ 0`). -/
def tickDt (w : PhysicsWorld) (timestamp : ℝ) : ℝ :=
  if w.lastTimestamp ≠ 0 then (timestamp - w.lastTimestamp) / 1000 else 1 / 60

/-- The per-object pipeline of the update loop body (lines 310–315):
`applyForce(gravity * mass)`, `update(dt)`, `checkBoundaries` (drawing omitted). -/
def tickObject (gravity : Vector2D) (width height dt : ℝ) (o : PhysicsObject) : PhysicsObject :=
  checkBoundaries width height (PhysicsObject.update dt (PhysicsObject.applyForce (gravity.multiply o.mass) o))

/-- Model of `PhysicsWorld.update(timestamp)` (lines 294–320): when paused the tick
returns with no state change (`lastTimestamp` untouched); when running it
computes `dt`, stores the new `lastTimestamp`, runs the per-object pipeline and
then the pairwise collision pass. -/
def PhysicsWorld.update (w : PhysicsWorld) (timestamp : ℝ) : PhysicsWorld :=
  if w.running = false then w
  else
    let dt := tickDt w timestamp
    { w with lastTimestamp := timestamp,
             objects := checkCollisions (w.objects.map (tickObject w.gravity w.width w.height dt)) }

/-- Model of `PhysicsWorld.pauseSimulation()` (lines 478–484): toggle `running`; when the
toggle resumes a world that has never ticked (`lastTimestamp === 0`), set the
baseline to the current time (`performance.now()`), otherwise leave it alone. -/
def PhysicsWorld.pauseSimulation (w : PhysicsWorld) (now : ℝ) : PhysicsWorld :=
  let w1 : PhysicsWorld := { w with running := !w.running }
  if w1.running = true ∧ w1.lastTimestamp = 0 then { w1 with lastTimestamp := now } else w1

/-- Model of `PhysicsWorld.setGlobalElasticity(e)` (lines 462–466). -/
def PhysicsWorld.setGlobalElasticity (elasticity : ℝ) (w : PhysicsWorld) : PhysicsWorld :=
  { w with objects := w.objects.map (PhysicsObject.withElasticity elasticity) }

/-- Model of `PhysicsWorld.setGlobalFriction(f)` (lines 468–472). -/
def PhysicsWorld.setGlobalFriction (friction : ℝ) (w : PhysicsWorld) : PhysicsWorld :=
  { w with objects := w.objects.map (PhysicsObject.withFriction friction) }

/-- The Circle instance of the per-object pipeline of one tick: through the
interface dispatch, a circle body goes through exactly this function. -/
def tickCircle (gravity : Vector2D) (width height dt : ℝ) (c : Circle) : Circle :=
  checkBoundariesCircle width height (Circle.update dt (Circle.applyForce (gravity.multiply c.mass) c))

/-- None of the four wall tests of `checkBoundaries` fires for this circle. -/
def inBoundsCircle (width height : ℝ) (c : Circle) : Prop :=
  ¬(c.position.y + c.radius > height) ∧ ¬(c.position.y - c.radius < 0) ∧
  ¬(c.position.x + c.radius > width) ∧ ¬(c.position.x - c.radius < 0)

/-- C6: the method `normalize()` applied to the zero vector returns the zero vector: the
zero-magnitude guard makes the division-by-zero path unreachable, so `normalize`
is total on all of `Vector2D`. -/
theorem normalize_zero_vector : Vector2D.normalize ⟨0, 0⟩ = (⟨0, 0⟩ : Vector2D) := by
  simp [Vector2D.normalize, Vector2D.magnitude]

/-- A circle body with the engine's default kinematic state, used to build
concrete scenarios. -/
def mkCircle (px py vx vy r m e f : ℝ) : Circle :=
  { position := ⟨px, py⟩, velocity := ⟨vx, vy⟩, acceleration := ⟨0, 0⟩,
    radius := r, mass := m, elasticity := e, friction := f, color := "gray" }

/-- A box body with the engine's default kinematic state. -/
def mkBox (px py vx vy w h m e f av : ℝ) : Box :=
  { position := ⟨px, py⟩, velocity := ⟨vx, vy⟩, acceleration := ⟨0, 0⟩,
    width := w, height := h, mass := m, elasticity := e, friction := f,
    color := "gray", rotation := 0, angularVelocity := av }

/-- Sanity: the interface dispatch of the tick pipeline agrees with `tickCircle`. -/
theorem tickObject_circle (gravity : Vector2D) (width height dt : ℝ) (c : Circle) :
    tickObject gravity width height dt (.circle c) = .circle (tickCircle gravity width height dt c) := rfl

/-- Helper: normalizing the zero vector gives the zero vector back (zero-magnitude guard). -/
theorem Vector2D.normalize_zero : (Vector2D.mk 0 0).normalize = ⟨0, 0⟩ := by
  simp [Vector2D.normalize, Vector2D.magnitude]

/-- Helper: the boundary pass touches only a circle's position and velocity. -/
theorem checkBoundariesCircle_frame (width height : ℝ) (c : Circle) :
    (checkBoundariesCircle width height c).mass = c.mass ∧
    (checkBoundariesCircle width height c).radius = c.radius ∧
    (checkBoundariesCircle width height c).elasticity = c.elasticity ∧
    (checkBoundariesCircle width height c).friction = c.friction ∧
    (checkBoundariesCircle width height c).acceleration = c.acceleration ∧
    (checkBoundariesCircle width height c).color = c.color := by
  simp only [checkBoundariesCircle]
  split_ifs <;> simp

/-- Helper: the boundary pass touches only a box's position, velocity and
(on the bottom wall) angular velocity. -/
theorem checkBoundariesBox_frame (width height : ℝ) (b : Box) :
    (checkBoundariesBox width height b).mass = b.mass ∧
    (checkBoundariesBox width height b).width = b.width ∧
    (checkBoundariesBox width height b).height = b.height ∧
    (checkBoundariesBox width height b).rotation = b.rotation ∧
    (checkBoundariesBox width height b).elasticity = b.elasticity ∧
    (checkBoundariesBox width height b).friction = b.friction ∧
    (checkBoundariesBox width height b).acceleration = b.acceleration ∧
    (checkBoundariesBox width height b).color = b.color := by
  simp only [checkBoundariesBox]
  split_ifs <;> simp

/-- C10: the pass `checkBoundaries` modifies only position, velocity and (Box, bottom
wall) angularVelocity: for every body and arena size it leaves mass, elasticity,
friction, acceleration and color unchanged, and the shape parameters — radius
for a circle; width, height and rotation for a box — unchanged. -/
theorem checkBoundaries_frame (width height : ℝ) :
    (∀ o : PhysicsObject,
      (checkBoundaries width height o).mass = o.mass ∧
      (checkBoundaries width height o).elasticity = o.elasticity ∧
      (checkBoundaries width height o).friction = o.friction ∧
      (checkBoundaries width height o).acceleration = o.acceleration ∧
      (checkBoundaries width height o).color = o.color) ∧
    (∀ c : Circle, (checkBoundariesCircle width height c).radius = c.radius) ∧
    (∀ b : Box, (checkBoundariesBox width height b).width = b.width ∧
      (checkBoundariesBox width height b).height = b.height ∧
      (checkBoundariesBox width height b).rotation = b.rotation) := by
  refine ⟨fun o => ?_, fun c => (checkBoundariesCircle_frame width height c).2.1,
    fun b => ⟨(checkBoundariesBox_frame width height b).2.1,
      (checkBoundariesBox_frame width height b).2.2.1,
      (checkBoundariesBox_frame width height b).2.2.2.1⟩⟩
  cases o with
  | circle c =>
      obtain ⟨h1, _, h3, h4, h5, h6⟩ := checkBoundariesCircle_frame width height c
      exact ⟨h1, h3, h4, h5, h6⟩
  | box b =>
      obtain ⟨h1, _, _, _, h5, h6, h7, h8⟩ := checkBoundariesBox_frame width height b
      exact ⟨h1, h5, h6, h7, h8⟩

/-- C7: the calls `setGlobalElasticity(e)` and `setGlobalFriction(f)` overwrite the
corresponding field of every body already in the world, so right after the call
every existing body reports the new value. -/
theorem setGlobal_retroactive (w : PhysicsWorld) (e f : ℝ) :
    (∀ o ∈ (PhysicsWorld.setGlobalElasticity e w).objects, o.elasticity = e) ∧
    (∀ o ∈ (PhysicsWorld.setGlobalFriction f w).objects, o.friction = f) := by
  constructor <;> intro o ho
  · simp only [PhysicsWorld.setGlobalElasticity, List.mem_map] at ho
    obtain ⟨p, _, rfl⟩ := ho
    cases p <;> simp [PhysicsObject.withElasticity, PhysicsObject.elasticity]
  · simp only [PhysicsWorld.setGlobalFriction, List.mem_map] at ho
    obtain ⟨p, _, rfl⟩ := ho
    cases p <;> simp [PhysicsObject.withFriction, PhysicsObject.friction]

/-- A world holding three bodies with varied individual elasticity and friction. -/
def demoWorld : PhysicsWorld :=
  { objects := [.circle (mkCircle 100 100 0 0 10 1 0.9 0.4),
                .circle (mkCircle 200 100 0 0 15 2 0.5 0.1),
                .box (mkBox 300 100 0 0 30 30 3 0.7 0.6 0)],
    running := true, lastTimestamp := 0, gravity := ⟨0, 9.8⟩, width := 800, height := 600 }

/-- Witness for C7: after setting global elasticity 0.3 and friction 0.6 on a
world of three bodies with varied values, a body of the updated world reports
the new values. -/
theorem setGlobal_retroactive_witness :
    (PhysicsObject.circle { mkCircle 100 100 0 0 10 1 0.9 0.4 with elasticity := (0.3 : ℝ) }).elasticity = 0.3 ∧
    (PhysicsObject.circle { mkCircle 100 100 0 0 10 1 0.9 0.4 with friction := (0.6 : ℝ) }).friction = 0.6 := by
  constructor
  · exact (setGlobal_retroactive demoWorld 0.3 0.6).1 _
      (by simp [demoWorld, PhysicsWorld.setGlobalElasticity, PhysicsObject.withElasticity])
  · exact (setGlobal_retroactive demoWorld 0.3 0.6).2 _
      (by simp [demoWorld, PhysicsWorld.setGlobalFriction, PhysicsObject.withFriction])

/-- C8: when the two circle centers exactly coincide, the collision branch is
entered (distance 0 is below `minDistance`), but the normal degenerates to the
zero vector, so the impulse and the positional correction are both zero and the
resolver returns both circles unchanged — no division fault path exists. -/
theorem coincident_centers_zero_impulse (circleA circleB : Circle)
    (hpos : circleA.position = circleB.position)
    (hrad : 0 < circleA.radius + circleB.radius) :
    handleCircleToCircleCollision circleA circleB = (circleA, circleB) := by
  have hsub : circleA.position.subtract circleB.position = ⟨0, 0⟩ := by
    simp [Vector2D.subtract, hpos]
  have hmag : (Vector2D.mk 0 0).magnitude = 0 := by
    simp [Vector2D.magnitude]
  simp only [handleCircleToCircleCollision, hsub, hmag, Vector2D.normalize_zero]
  rw [if_pos hrad]
  have hdot : (circleA.velocity.subtract circleB.velocity).dot ⟨0, 0⟩ = 0 := by
    simp [Vector2D.dot]
  rw [hdot, if_neg (lt_irrefl (0 : ℝ))]
  simp [Vector2D.multiply, Vector2D.add, Vector2D.subtract]

/-- Witness for C8: two coincident unit-radius circles come out of the resolver
exactly as they went in. -/
theorem coincident_centers_zero_impulse_witness :
    handleCircleToCircleCollision (mkCircle 5 5 1 0 1 1 0.7 0.1) (mkCircle 5 5 (-1) 0 1 2 0.7 0.1)
      = (mkCircle 5 5 1 0 1 1 0.7 0.1, mkCircle 5 5 (-1) 0 1 2 0.7 0.1) :=
  coincident_centers_zero_impulse _ _ (by simp [mkCircle]) (by norm_num [mkCircle])

/-- C9: the Circle–Circle impulse is equal and opposite scaled by the inverse
masses, so total linear momentum `m_A·v_A + m_B·v_B` is exactly preserved by the
resolver, for all positive masses and arbitrary elasticities. -/
theorem collision_conserves_momentum (circleA circleB : Circle)
    (hmA : 0 < circleA.mass) (hmB : 0 < circleB.mass) :
    (((handleCircleToCircleCollision circleA circleB).1.velocity.multiply circleA.mass).add
      ((handleCircleToCircleCollision circleA circleB).2.velocity.multiply circleB.mass))
      = ((circleA.velocity.multiply circleA.mass).add (circleB.velocity.multiply circleB.mass)) := by
  simp only [handleCircleToCircleCollision]
  split_ifs with h1 h2
  · rfl
  · ext <;>
      simp only [Vector2D.add, Vector2D.subtract, Vector2D.multiply] <;>
      field_simp <;> ring
  · rfl

/-- Witness for C9: momentum conservation instantiated at two concrete
overlapping circles of masses 1 and 2. -/
theorem collision_conserves_momentum_witness :
    (((handleCircleToCircleCollision (mkCircle 3 0 (-1) 0 2 1 0.5 0.1) (mkCircle 0 0 0 0 2 2 0.9 0.1)).1.velocity.multiply
        (mkCircle 3 0 (-1) 0 2 1 0.5 0.1).mass).add
      ((handleCircleToCircleCollision (mkCircle 3 0 (-1) 0 2 1 0.5 0.1) (mkCircle 0 0 0 0 2 2 0.9 0.1)).2.velocity.multiply
        (mkCircle 0 0 0 0 2 2 0.9 0.1).mass))
      = (((mkCircle 3 0 (-1) 0 2 1 0.5 0.1).velocity.multiply (mkCircle 3 0 (-1) 0 2 1 0.5 0.1).mass).add
        ((mkCircle 0 0 0 0 2 2 0.9 0.1).velocity.multiply (mkCircle 0 0 0 0 2 2 0.9 0.1).mass)) :=
  collision_conserves_momentum _ _ (by norm_num [mkCircle]) (by norm_num [mkCircle])

/-- C4: for every overlapping, non-separating Circle–Circle pair, the resolver
changes the velocities by exactly the impulse `j·n/m` with
`j = -(1+e)·vn / (1/mA + 1/mB)`, `e = min(elasticityA, elasticityB)` and
`n` the collision normal: `+j·n/mA` on A and `-j·n/mB` on B, a change purely
along the normal (no tangential component). -/
theorem impulse_formula (circleA circleB : Circle)
    (hd : (circleA.position.subtract circleB.position).magnitude < circleA.radius + circleB.radius)
    (hv : (circleA.velocity.subtract circleB.velocity).dot
        ((circleA.position.subtract circleB.position).normalize) ≤ 0) :
    (handleCircleToCircleCollision circleA circleB).1.velocity
      = circleA.velocity.add
          ((((circleA.position.subtract circleB.position).normalize).multiply
            ((-(1 + min circleA.elasticity circleB.elasticity) *
              ((circleA.velocity.subtract circleB.velocity).dot
                ((circleA.position.subtract circleB.position).normalize))) /
             (1 / circleA.mass + 1 / circleB.mass))).multiply (1 / circleA.mass)) ∧
    (handleCircleToCircleCollision circleA circleB).2.velocity
      = circleB.velocity.subtract
          ((((circleA.position.subtract circleB.position).normalize).multiply
            ((-(1 + min circleA.elasticity circleB.elasticity) *
              ((circleA.velocity.subtract circleB.velocity).dot
                ((circleA.position.subtract circleB.position).normalize))) /
             (1 / circleA.mass + 1 / circleB.mass))).multiply (1 / circleB.mass)) := by
  simp only [handleCircleToCircleCollision]
  rw [if_pos hd, if_neg (not_lt.mpr hv)]
  exact ⟨rfl, rfl⟩

/-- Helper: the square root of nine. -/
theorem sqrt_nine : Real.sqrt 9 = 3 := by
  rw [show (9 : ℝ) = 3 ^ 2 by norm_num, Real.sqrt_sq (by norm_num : (0 : ℝ) ≤ 3)]

/-- Helper: the magnitude of the vector (3, 0). -/
theorem magnitude_three_zero : (Vector2D.mk 3 0).magnitude = 3 := by
  rw [Vector2D.magnitude]
  norm_num [sqrt_nine]

/-- Helper: normalizing the vector (3, 0) gives the unit vector (1, 0). -/
theorem normalize_three_zero : (Vector2D.mk 3 0).normalize = ⟨1, 0⟩ := by
  rw [Vector2D.normalize, if_neg (by rw [magnitude_three_zero]; norm_num)]
  rw [magnitude_three_zero]
  norm_num

/-- Witness for C4: the impulse formula instantiated at two concrete circles of
radius 2 whose centers are 3 apart, approaching along the line of centers. -/
theorem impulse_formula_witness :
    (handleCircleToCircleCollision (mkCircle 3 0 (-1) 0 2 1 0.5 0.1) (mkCircle 0 0 0 0 2 2 0.9 0.1)).1.velocity
      = (mkCircle 3 0 (-1) 0 2 1 0.5 0.1).velocity.add
          (((((mkCircle 3 0 (-1) 0 2 1 0.5 0.1).position.subtract (mkCircle 0 0 0 0 2 2 0.9 0.1).position).normalize).multiply
            ((-(1 + min (mkCircle 3 0 (-1) 0 2 1 0.5 0.1).elasticity (mkCircle 0 0 0 0 2 2 0.9 0.1).elasticity) *
              (((mkCircle 3 0 (-1) 0 2 1 0.5 0.1).velocity.subtract (mkCircle 0 0 0 0 2 2 0.9 0.1).velocity).dot
                (((mkCircle 3 0 (-1) 0 2 1 0.5 0.1).position.subtract (mkCircle 0 0 0 0 2 2 0.9 0.1).position).normalize))) /
             (1 / (mkCircle 3 0 (-1) 0 2 1 0.5 0.1).mass + 1 / (mkCircle 0 0 0 0 2 2 0.9 0.1).mass))).multiply
            (1 / (mkCircle 3 0 (-1) 0 2 1 0.5 0.1).mass)) ∧
    (handleCircleToCircleCollision (mkCircle 3 0 (-1) 0 2 1 0.5 0.1) (mkCircle 0 0 0 0 2 2 0.9 0.1)).2.velocity
      = (mkCircle 0 0 0 0 2 2 0.9 0.1).velocity.subtract
          (((((mkCircle 3 0 (-1) 0 2 1 0.5 0.1).position.subtract (mkCircle 0 0 0 0 2 2 0.9 0.1).position).normalize).multiply
            ((-(1 + min (mkCircle 3 0 (-1) 0 2 1 0.5 0.1).elasticity (mkCircle 0 0 0 0 2 2 0.9 0.1).elasticity) *
              (((mkCircle 3 0 (-1) 0 2 1 0.5 0.1).velocity.subtract (mkCircle 0 0 0 0 2 2 0.9 0.1).velocity).dot
                (((mkCircle 3 0 (-1) 0 2 1 0.5 0.1).position.subtract (mkCircle 0 0 0 0 2 2 0.9 0.1).position).normalize))) /
             (1 / (mkCircle 3 0 (-1) 0 2 1 0.5 0.1).mass + 1 / (mkCircle 0 0 0 0 2 2 0.9 0.1).mass))).multiply
            (1 / (mkCircle 0 0 0 0 2 2 0.9 0.1).mass)) := by
  apply impulse_formula
  · have h : (mkCircle 3 0 (-1) 0 2 1 0.5 0.1).position.subtract (mkCircle 0 0 0 0 2 2 0.9 0.1).position
        = Vector2D.mk 3 0 := by
      simp [mkCircle, Vector2D.subtract]
    rw [h, magnitude_three_zero]
    norm_num [mkCircle]
  · have h : (mkCircle 3 0 (-1) 0 2 1 0.5 0.1).position.subtract (mkCircle 0 0 0 0 2 2 0.9 0.1).position
        = Vector2D.mk 3 0 := by
      simp [mkCircle, Vector2D.subtract]
    rw [h, normalize_three_zero]
    norm_num [mkCircle, Vector2D.subtract, Vector2D.dot]

/-- C5: two overlapping circles of equal mass and elasticity 1, approaching
head-on (relative velocity parallel to the line of centers, with nonzero center
distance), exactly exchange their velocities, and total kinetic energy
`½·m·|v|²` is conserved. -/
theorem equal_mass_elastic_exchange (circleA circleB : Circle) (k : ℝ)
    (hmAB : circleA.mass = circleB.mass) (hm : 0 < circleA.mass)
    (heA : circleA.elasticity = 1) (heB : circleB.elasticity = 1)
    (hd0 : (circleA.position.subtract circleB.position).magnitude ≠ 0)
    (hd : (circleA.position.subtract circleB.position).magnitude
        < circleA.radius + circleB.radius)
    (hk : circleA.velocity.subtract circleB.velocity
        = (circleA.position.subtract circleB.position).multiply k)
    (hv : (circleA.velocity.subtract circleB.velocity).dot
        ((circleA.position.subtract circleB.position).normalize) ≤ 0) :
    (handleCircleToCircleCollision circleA circleB).1.velocity = circleB.velocity ∧
    (handleCircleToCircleCollision circleA circleB).2.velocity = circleA.velocity ∧
    (1 / 2) * circleA.mass *
        ((handleCircleToCircleCollision circleA circleB).1.velocity.dot
          (handleCircleToCircleCollision circleA circleB).1.velocity) +
      (1 / 2) * circleB.mass *
        ((handleCircleToCircleCollision circleA circleB).2.velocity.dot
          (handleCircleToCircleCollision circleA circleB).2.velocity)
      = (1 / 2) * circleA.mass * (circleA.velocity.dot circleA.velocity) +
        (1 / 2) * circleB.mass * (circleB.velocity.dot circleB.velocity) := by
  have h12 : (handleCircleToCircleCollision circleA circleB).1.velocity = circleB.velocity ∧
      (handleCircleToCircleCollision circleA circleB).2.velocity = circleA.velocity := by
    obtain ⟨⟨pax, pay⟩, ⟨vax, vay⟩, aacc, ar, am, ae, af, ac⟩ := circleA
    obtain ⟨⟨pbx, pby⟩, ⟨vbx, vby⟩, bacc, br, bm, be, bf, bc⟩ := circleB
    simp only at hmAB hm heA heB
    subst hmAB heA heB
    have hm' : am ≠ 0 := ne_of_gt hm
    have hkx : vax - vbx = (pax - pbx) * k := by
      have := congrArg Vector2D.x hk
      simpa [Vector2D.subtract, Vector2D.multiply] using this
    have hky : vay - vby = (pay - pby) * k := by
      have := congrArg Vector2D.y hk
      simpa [Vector2D.subtract, Vector2D.multiply] using this
    simp only [handleCircleToCircleCollision]
    rw [if_pos hd, if_neg (not_lt.mpr hv)]
    rw [Vector2D.normalize, if_neg hd0]
    simp only [Vector2D.subtract, Vector2D.magnitude, Vector2D.multiply, Vector2D.add,
      Vector2D.dot] at hd0 ⊢
    set d := Real.sqrt ((pax - pbx) * (pax - pbx) + (pay - pby) * (pay - pby)) with hdd
    have hd2 : d * d = (pax - pbx) * (pax - pbx) + (pay - pby) * (pay - pby) := by
      rw [hdd]
      exact Real.mul_self_sqrt (add_nonneg (mul_self_nonneg _) (mul_self_nonneg _))
    have hvn : (vax - vbx) * ((pax - pbx) / d) + (vay - vby) * ((pay - pby) / d) = k * d := by
      rw [hkx, hky]
      field_simp
      first
        | linear_combination 2 * k * hd2
        | linear_combination (-2) * k * hd2
        | linear_combination k * hd2
        | linear_combination (-1) * k * hd2
    rw [hvn]
    refine ⟨?_, ?_⟩ <;> ext <;> field_simp <;>
      first
        | linear_combination 2 * d * am * hkx
        | linear_combination 2 * d * am * hky
        | linear_combination (-2) * d * am * hkx
        | linear_combination (-2) * d * am * hky
  refine ⟨h12.1, h12.2, ?_⟩
  rw [h12.1, h12.2, hmAB]
  ring

/-- Witness for C5: two equal-mass, elasticity-1 circles 3 apart with radius 2,
approaching head-on along the x-axis, exchange velocities and keep the total
kinetic energy. -/
theorem equal_mass_elastic_exchange_witness :
    (handleCircleToCircleCollision (mkCircle 3 0 (-2) 0 2 1 1 0.1) (mkCircle 0 0 0 0 2 1 1 0.1)).1.velocity
      = (mkCircle 0 0 0 0 2 1 1 0.1).velocity ∧
    (handleCircleToCircleCollision (mkCircle 3 0 (-2) 0 2 1 1 0.1) (mkCircle 0 0 0 0 2 1 1 0.1)).2.velocity
      = (mkCircle 3 0 (-2) 0 2 1 1 0.1).velocity ∧
    (1 / 2) * (mkCircle 3 0 (-2) 0 2 1 1 0.1).mass *
        ((handleCircleToCircleCollision (mkCircle 3 0 (-2) 0 2 1 1 0.1) (mkCircle 0 0 0 0 2 1 1 0.1)).1.velocity.dot
          (handleCircleToCircleCollision (mkCircle 3 0 (-2) 0 2 1 1 0.1) (mkCircle 0 0 0 0 2 1 1 0.1)).1.velocity) +
      (1 / 2) * (mkCircle 0 0 0 0 2 1 1 0.1).mass *
        ((handleCircleToCircleCollision (mkCircle 3 0 (-2) 0 2 1 1 0.1) (mkCircle 0 0 0 0 2 1 1 0.1)).2.velocity.dot
          (handleCircleToCircleCollision (mkCircle 3 0 (-2) 0 2 1 1 0.1) (mkCircle 0 0 0 0 2 1 1 0.1)).2.velocity)
      = (1 / 2) * (mkCircle 3 0 (-2) 0 2 1 1 0.1).mass *
          ((mkCircle 3 0 (-2) 0 2 1 1 0.1).velocity.dot (mkCircle 3 0 (-2) 0 2 1 1 0.1).velocity) +
        (1 / 2) * (mkCircle 0 0 0 0 2 1 1 0.1).mass *
          ((mkCircle 0 0 0 0 2 1 1 0.1).velocity.dot (mkCircle 0 0 0 0 2 1 1 0.1).velocity) := by
  apply equal_mass_elastic_exchange (mkCircle 3 0 (-2) 0 2 1 1 0.1) (mkCircle 0 0 0 0 2 1 1 0.1) (-2 / 3)
  · rfl
  · norm_num [mkCircle]
  · rfl
  · rfl
  · have h : (mkCircle 3 0 (-2) 0 2 1 1 0.1).position.subtract (mkCircle 0 0 0 0 2 1 1 0.1).position
        = Vector2D.mk 3 0 := by simp [mkCircle, Vector2D.subtract]
    rw [h, magnitude_three_zero]
    norm_num
  · have h : (mkCircle 3 0 (-2) 0 2 1 1 0.1).position.subtract (mkCircle 0 0 0 0 2 1 1 0.1).position
        = Vector2D.mk 3 0 := by simp [mkCircle, Vector2D.subtract]
    rw [h, magnitude_three_zero]
    norm_num [mkCircle]
  · ext <;> norm_num [mkCircle, Vector2D.subtract, Vector2D.multiply]
  · have h : (mkCircle 3 0 (-2) 0 2 1 1 0.1).position.subtract (mkCircle 0 0 0 0 2 1 1 0.1).position
        = Vector2D.mk 3 0 := by simp [mkCircle, Vector2D.subtract]
    rw [h, normalize_three_zero]
    norm_num [mkCircle, Vector2D.subtract, Vector2D.dot]

/-- C3: boundary resolution, wall by wall. A body penetrating the bottom wall
(extent: radius for a Circle, height/2 for a Box) is clamped so the extent
touches the wall exactly, its `velocity.y` becomes `-velocity.y * elasticity`,
its `velocity.x` is scaled by `(1 - friction)`, and a Box additionally has
`angularVelocity` multiplied by 0.8; each of the other three walls clamps and
negate-and-scales only the normal velocity component, leaving the tangential
component untouched. The side hypotheses say the other three wall tests do not
fire in the same pass. -/
theorem boundary_resolution (width height : ℝ) :
    (∀ c : Circle, c.position.y + c.radius > height →
      ¬(height - c.radius - c.radius < 0) →
      ¬(c.position.x + c.radius > width) → ¬(c.position.x - c.radius < 0) →
      checkBoundariesCircle width height c
        = { c with position := ⟨c.position.x, height - c.radius⟩,
                   velocity := ⟨c.velocity.x * (1 - c.friction), -c.velocity.y * c.elasticity⟩ }) ∧
    (∀ c : Circle, ¬(c.position.y + c.radius > height) → c.position.y - c.radius < 0 →
      ¬(c.position.x + c.radius > width) → ¬(c.position.x - c.radius < 0) →
      checkBoundariesCircle width height c
        = { c with position := ⟨c.position.x, c.radius⟩,
                   velocity := ⟨c.velocity.x, -c.velocity.y * c.elasticity⟩ }) ∧
    (∀ c : Circle, ¬(c.position.y + c.radius > height) → ¬(c.position.y - c.radius < 0) →
      c.position.x + c.radius > width → ¬(width - c.radius - c.radius < 0) →
      checkBoundariesCircle width height c
        = { c with position := ⟨width - c.radius, c.position.y⟩,
                   velocity := ⟨-c.velocity.x * c.elasticity, c.velocity.y⟩ }) ∧
    (∀ c : Circle, ¬(c.position.y + c.radius > height) → ¬(c.position.y - c.radius < 0) →
      ¬(c.position.x + c.radius > width) → c.position.x - c.radius < 0 →
      checkBoundariesCircle width height c
        = { c with position := ⟨c.radius, c.position.y⟩,
                   velocity := ⟨-c.velocity.x * c.elasticity, c.velocity.y⟩ }) ∧
    (∀ b : Box, b.position.y + b.height / 2 > height →
      ¬(height - b.height / 2 - b.height / 2 < 0) →
      ¬(b.position.x + b.width / 2 > width) → ¬(b.position.x - b.width / 2 < 0) →
      checkBoundariesBox width height b
        = { b with position := ⟨b.position.x, height - b.height / 2⟩,
                   velocity := ⟨b.velocity.x * (1 - b.friction), -b.velocity.y * b.elasticity⟩,
                   angularVelocity := b.angularVelocity * 0.8 }) ∧
    (∀ b : Box, ¬(b.position.y + b.height / 2 > height) → b.position.y - b.height / 2 < 0 →
      ¬(b.position.x + b.width / 2 > width) → ¬(b.position.x - b.width / 2 < 0) →
      checkBoundariesBox width height b
        = { b with position := ⟨b.position.x, b.height / 2⟩,
                   velocity := ⟨b.velocity.x, -b.velocity.y * b.elasticity⟩ }) ∧
    (∀ b : Box, ¬(b.position.y + b.height / 2 > height) → ¬(b.position.y - b.height / 2 < 0) →
      b.position.x + b.width / 2 > width → ¬(width - b.width / 2 - b.width / 2 < 0) →
      checkBoundariesBox width height b
        = { b with position := ⟨width - b.width / 2, b.position.y⟩,
                   velocity := ⟨-b.velocity.x * b.elasticity, b.velocity.y⟩ }) ∧
    (∀ b : Box, ¬(b.position.y + b.height / 2 > height) → ¬(b.position.y - b.height / 2 < 0) →
      ¬(b.position.x + b.width / 2 > width) → b.position.x - b.width / 2 < 0 →
      checkBoundariesBox width height b
        = { b with position := ⟨b.width / 2, b.position.y⟩,
                   velocity := ⟨-b.velocity.x * b.elasticity, b.velocity.y⟩ }) := by
  refine ⟨fun c h1 h2 h3 h4 => ?_, fun c h1 h2 h3 h4 => ?_, fun c h1 h2 h3 h4 => ?_,
    fun c h1 h2 h3 h4 => ?_, fun b h1 h2 h3 h4 => ?_, fun b h1 h2 h3 h4 => ?_,
    fun b h1 h2 h3 h4 => ?_, fun b h1 h2 h3 h4 => ?_⟩
  · simp only [checkBoundariesCircle]
    rw [if_pos h1]
    dsimp only
    rw [if_neg h2, if_neg h3, if_neg h4]
  · simp only [checkBoundariesCircle]
    rw [if_neg h1, if_pos h2]
    dsimp only
    rw [if_neg h3, if_neg h4]
  · simp only [checkBoundariesCircle]
    rw [if_neg h1, if_neg h2, if_pos h3]
    dsimp only
    rw [if_neg h4]
  · simp only [checkBoundariesCircle]
    rw [if_neg h1, if_neg h2, if_neg h3, if_pos h4]
  · simp only [checkBoundariesBox]
    rw [if_pos h1]
    dsimp only
    rw [if_neg h2, if_neg h3, if_neg h4]
  · simp only [checkBoundariesBox]
    rw [if_neg h1, if_pos h2]
    dsimp only
    rw [if_neg h3, if_neg h4]
  · simp only [checkBoundariesBox]
    rw [if_neg h1, if_neg h2, if_pos h3]
    dsimp only
    rw [if_neg h4]
  · simp only [checkBoundariesBox]
    rw [if_neg h1, if_neg h2, if_neg h3, if_pos h4]

/-- Witness for C3: a circle and a box penetrating the bottom wall of an
800×600 arena get clamped to touch the wall, their vertical velocity reflected
and scaled by elasticity, their horizontal velocity scaled by `(1 - friction)`,
and the box's angular velocity scaled by 0.8. -/
theorem boundary_resolution_witness :
    checkBoundariesCircle 800 600 (mkCircle 400 599 3 5 10 1 0.7 0.1)
      = { mkCircle 400 599 3 5 10 1 0.7 0.1 with
          position := ⟨(mkCircle 400 599 3 5 10 1 0.7 0.1).position.x,
            600 - (mkCircle 400 599 3 5 10 1 0.7 0.1).radius⟩,
          velocity := ⟨(mkCircle 400 599 3 5 10 1 0.7 0.1).velocity.x *
              (1 - (mkCircle 400 599 3 5 10 1 0.7 0.1).friction),
            -(mkCircle 400 599 3 5 10 1 0.7 0.1).velocity.y *
              (mkCircle 400 599 3 5 10 1 0.7 0.1).elasticity⟩ } ∧
    checkBoundariesBox 800 600 (mkBox 400 595 2 3 40 20 1 0.7 0.1 5)
      = { mkBox 400 595 2 3 40 20 1 0.7 0.1 5 with
          position := ⟨(mkBox 400 595 2 3 40 20 1 0.7 0.1 5).position.x,
            600 - (mkBox 400 595 2 3 40 20 1 0.7 0.1 5).height / 2⟩,
          velocity := ⟨(mkBox 400 595 2 3 40 20 1 0.7 0.1 5).velocity.x *
              (1 - (mkBox 400 595 2 3 40 20 1 0.7 0.1 5).friction),
            -(mkBox 400 595 2 3 40 20 1 0.7 0.1 5).velocity.y *
              (mkBox 400 595 2 3 40 20 1 0.7 0.1 5).elasticity⟩,
          angularVelocity := (mkBox 400 595 2 3 40 20 1 0.7 0.1 5).angularVelocity * 0.8 } := by
  constructor
  · exact (boundary_resolution 800 600).1 (mkCircle 400 599 3 5 10 1 0.7 0.1)
      (by norm_num [mkCircle]) (by norm_num [mkCircle])
      (by norm_num [mkCircle]) (by norm_num [mkCircle])
  · exact (boundary_resolution 800 600).2.2.2.2.1 (mkBox 400 595 2 3 40 20 1 0.7 0.1 5)
      (by norm_num [mkBox]) (by norm_num [mkBox])
      (by norm_num [mkBox]) (by norm_num [mkBox])

/-- Helper: when no wall test fires, the boundary pass is the identity. -/
theorem checkBoundariesCircle_id (width height : ℝ) (c : Circle)
    (h : inBoundsCircle width height c) : checkBoundariesCircle width height c = c := by
  obtain ⟨h1, h2, h3, h4⟩ := h
  simp only [checkBoundariesCircle]
  rw [if_neg h1, if_neg h2, if_neg h3, if_neg h4]

/-- C1: a circle with zero initial velocity and acceleration under constant
gravity and fixed `dt`, whose ticks never trip a wall test (and, being alone in
the pipeline, never collide), has after `n` ticks
`velocity.y = gravity.y * n * dt` and a position advanced by
`gravity.y * dt² * n(n+1)/2` — the closed-form sum of the semi-implicit Euler
updates. -/
theorem integration_closed_form (gravity : Vector2D) (width height dt : ℝ) (c : Circle) (n : ℕ)
    (hv : c.velocity = ⟨0, 0⟩) (ha : c.acceleration = ⟨0, 0⟩) (hm : 0 < c.mass)
    (hnb : ∀ k, k < n → inBoundsCircle width height
      (Circle.update dt (Circle.applyForce
        (gravity.multiply ((tickCircle gravity width height dt)^[k] c).mass)
        ((tickCircle gravity width height dt)^[k] c)))) :
    ((tickCircle gravity width height dt)^[n] c).velocity.y = gravity.y * n * dt ∧
    ((tickCircle gravity width height dt)^[n] c).position.y
      = c.position.y + gravity.y * dt ^ 2 * (n * (n + 1) / 2) := by
  have key : ∀ m : ℕ, m ≤ n →
      ((tickCircle gravity width height dt)^[m] c).mass = c.mass ∧
      ((tickCircle gravity width height dt)^[m] c).acceleration = ⟨0, 0⟩ ∧
      ((tickCircle gravity width height dt)^[m] c).velocity.y = gravity.y * m * dt ∧
      ((tickCircle gravity width height dt)^[m] c).position.y
        = c.position.y + gravity.y * dt ^ 2 * (m * (m + 1) / 2) := by
    intro m hmn
    induction m with
    | zero => simp [hv, ha]
    | succ m ih =>
        obtain ⟨ihmass, ihacc, ihvel, ihpos⟩ := ih (Nat.le_of_succ_le hmn)
        have hb := hnb m (Nat.lt_of_succ_le hmn)
        rw [Function.iterate_succ_apply']
        set cm := (tickCircle gravity width height dt)^[m] c with hcm
        have ihacc_y : cm.acceleration.y = 0 := by rw [ihacc]
        rw [tickCircle, checkBoundariesCircle_id _ _ _ hb]
        have hm' : c.mass ≠ 0 := ne_of_gt hm
        refine ⟨?_, ?_, ?_, ?_⟩ <;>
          simp only [Circle.update, Circle.applyForce, Vector2D.add, Vector2D.multiply]
        · exact ihmass
        · rw [ihvel, ihacc_y, ihmass]
          push_cast
          field_simp
          ring
        · rw [ihpos, ihvel, ihacc_y, ihmass]
          push_cast
          field_simp
          ring
  exact ⟨(key n le_rfl).2.2.1, (key n le_rfl).2.2.2⟩

/-- Witness for C1: a circle dropped from (400, 10) with radius 5 and mass 1 in
an 800×600 arena under gravity (0, 1) with dt = 1 reaches, after 2 ticks,
velocity.y = 2 = g.y·n·dt and position.y = 13 = 10 + g.y·dt²·n(n+1)/2. -/
theorem integration_closed_form_witness :
    ((tickCircle ⟨0, 1⟩ 800 600 1)^[2] (mkCircle 400 10 0 0 5 1 0.7 0.1)).velocity.y = 2 ∧
    ((tickCircle ⟨0, 1⟩ 800 600 1)^[2] (mkCircle 400 10 0 0 5 1 0.7 0.1)).position.y = 13 := by
  have h := integration_closed_form ⟨0, 1⟩ 800 600 1 (mkCircle 400 10 0 0 5 1 0.7 0.1) 2
    rfl rfl (by norm_num [mkCircle])
    (by
      intro k hk
      interval_cases k <;>
        norm_num [Function.iterate_succ_apply', mkCircle, tickCircle, checkBoundariesCircle,
          inBoundsCircle, Circle.update, Circle.applyForce, Vector2D.add, Vector2D.multiply])
  exact ⟨h.1.trans (by norm_num), h.2.trans (by norm_num [mkCircle])⟩

/-- A fresh world as built by the constructor: running, no tick yet. -/
def w0 : PhysicsWorld :=
  { objects := [], running := true, lastTimestamp := 0, gravity := ⟨0, 9.8⟩,
    width := 800, height := 600 }

/-- The run refuting C2: tick at 1000 and 2000, pause at 2500, a scheduled tick
at 3000 while paused, resume at 50000. -/
def wResumed : PhysicsWorld :=
  ((((w0.update 1000).update 2000).pauseSimulation 2500).update 3000).pauseSimulation 50000

/-- Counterexample for C2: after resuming at time 50000, the next tick at 51000
computes `dt = 49` seconds — spanning back to the last running tick at 2000 and
therefore including the whole paused interval — whereas a fresh baseline at the
resume time would give `dt = 1` second. `lastTimestamp` is not refreshed on
resume (the `lastTimestamp === 0` guard in `pauseSimulation` only covers a
world that has never ticked). -/
theorem pause_resume_stale_dt :
    wResumed.running = true ∧ wResumed.lastTimestamp = 2000 ∧
    tickDt wResumed 51000 = 49 ∧ (51000 - 50000 : ℝ) / 1000 = 1 ∧ (49 : ℝ) ≠ 1 := by
  have h : wResumed
      = { objects := [], running := true, lastTimestamp := 2000,
          gravity := ⟨0, 9.8⟩, width := 800, height := 600 } := by
    norm_num [wResumed, w0, PhysicsWorld.update, PhysicsWorld.pauseSimulation, tickDt,
      checkCollisions]
  rw [h]
  norm_num [tickDt]

/-- C2 amended: toggling a paused world back to Running leaves `lastTimestamp`
at the timestamp of the last tick executed while running, so the next tick's
`dt = (timestamp - lastTimestamp)/1000` includes the paused wall-clock
interval; only a world that never ticked (`lastTimestamp = 0`) gets a fresh
baseline, set to the resume time. -/
theorem pause_resume_dt_amended (w : PhysicsWorld) (now : ℝ) (hrun : w.running = false) :
    (w.lastTimestamp ≠ 0 →
      (w.pauseSimulation now).running = true ∧
      (w.pauseSimulation now).lastTimestamp = w.lastTimestamp ∧
      ∀ timestamp : ℝ, tickDt (w.pauseSimulation now) timestamp
        = (timestamp - w.lastTimestamp) / 1000) ∧
    (w.lastTimestamp = 0 →
      (w.pauseSimulation now).running = true ∧
      (w.pauseSimulation now).lastTimestamp = now) := by
  constructor
  · intro hL
    refine ⟨?_, ?_, fun timestamp => ?_⟩ <;>
      simp [PhysicsWorld.pauseSimulation, hrun, hL, tickDt]
  · intro hL0
    constructor <;> simp [PhysicsWorld.pauseSimulation, hrun, hL0]

/-- A world paused after its last running tick happened at time 2000. -/
def wPaused : PhysicsWorld :=
  { objects := [], running := false, lastTimestamp := 2000, gravity := ⟨0, 9.8⟩,
    width := 800, height := 600 }

/-- Witness for the amended C2: resuming a paused world whose last running tick
was at 2000 keeps `lastTimestamp = 2000`, and the tick at 51000 uses
`dt = 49` seconds. -/
theorem pause_resume_dt_amended_witness :
    (PhysicsWorld.pauseSimulation wPaused 50000).lastTimestamp = 2000 ∧
    tickDt (PhysicsWorld.pauseSimulation wPaused 50000) 51000 = 49 := by
  have h := (pause_resume_dt_amended wPaused 50000 rfl).1 (by norm_num [wPaused])
  exact ⟨h.2.1, (h.2.2 51000).trans (by norm_num [wPaused])⟩
